import Mathlib

/-!
A shallow embedding of the risk-evaluation and attack-propagation engine of
the Zero-Trust Network Simulator (`main.py`), together with theorems checking
the design specification against it.

Modelling conventions:
* Python floats are modelled as exact rationals (`ℚ`); every constant in the
  source is exactly representable.
* Python dicts keyed by id are modelled as lists, with `List.find?` playing
  the role of `dict.get` (keys are unique in every constructed state).
* `network_graph` (a `defaultdict(set)` of neighbor sets) is modelled as a
  list of directed edges; the symmetric closure of the connection list.
* The random draws of the simulators (chosen users/devices/resources, and the
  per-attempt success draws of the zero-trust attack) are passed in explicitly
  as arguments, so each simulator is a deterministic function of its draws.
* `datetime.fromtimestamp(ts).hour` is modelled as `ts / 3600 % 24` (the
  timestamp is taken in seconds with the epoch-aligned hour convention).
* Event emission (`socketio.emit`) and sleeping are I/O with no effect on the
  engine state and are dropped from the embedding.
-/

namespace ZeroTrust

/-- `DeviceType` enum of the source. -/
inductive DeviceType where
  | router
  | server
  | workstation
  | mobile
  | iot
deriving DecidableEq, Repr

/-- The `.value` string of each `DeviceType` member. -/
def DeviceType.value : DeviceType → String
  | .router => "router"
  | .server => "server"
  | .workstation => "workstation"
  | .mobile => "mobile"
  | .iot => "iot"

/-- `AccessDecision` enum of the source. -/
inductive AccessDecision where
  | ALLOW
  | DENY
  | CHALLENGE
deriving DecidableEq, Repr

/-- The `.value` string of each `AccessDecision` member. -/
def AccessDecision.value : AccessDecision → String
  | .ALLOW => "allowed"
  | .DENY => "denied"
  | .CHALLENGE => "challenged"

/-- `Device` dataclass of the source. -/
structure Device where
  device_id : String
  device_type : DeviceType
  ip_address : String
  trust_score : ℚ
  is_compromised : Bool
  location : String
  x : ℚ
  y : ℚ
deriving DecidableEq, Repr

/-- `User` dataclass of the source. -/
structure User where
  user_id : String
  name : String
  role : String
  risk_score : ℚ
  department : String
deriving DecidableEq, Repr

/-- `AccessRequest` dataclass of the source (timestamp in whole seconds). -/
structure AccessRequest where
  user_id : String
  device_id : String
  resource : String
  action : String
  timestamp : ℕ
deriving DecidableEq, Repr

/-- The `activity_stats` counter dictionary of the simulator. -/
structure ActivityStats where
  allowed : ℕ
  denied : ℕ
  challenged : ℕ
  total_requests : ℕ
deriving DecidableEq, Repr

/-- The four named entries of the `risk_factors` dictionary computed by
`evaluate_zerotrust_access`. -/
structure RiskFactors where
  user_risk : ℚ
  device_risk : ℚ
  resource_sensitivity : ℚ
  time_risk : ℚ
deriving DecidableEq, Repr

/-- The result dictionary of `evaluate_zerotrust_access`; `risk_factors` is
`none` on the unknown-user-or-device branch, which omits the key. -/
structure AccessResult where
  decision : AccessDecision
  reason : String
  trust_score : ℚ
  risk_factors : Option RiskFactors
deriving DecidableEq, Repr

/-- The engine state of `ZeroTrustNetworkSimulator`: devices, users, adjacency
edge list, running stats, and the (never populated, only cleared)
`attack_sessions` bookkeeping. -/
structure SimState where
  devices : List Device
  users : List User
  network_graph : List (String × String)
  activity_stats : ActivityStats
  attack_sessions : List String
deriving DecidableEq, Repr

/-- The `devices_config` table of `_initialize_network`. -/
def devices_config : List Device :=
  [ ⟨"firewall-01", .router, "192.168.1.1", 0.95, false, "office", 400, 100⟩,
    ⟨"dc-server-01", .server, "192.168.1.10", 0.9, false, "office", 300, 200⟩,
    ⟨"db-server-01", .server, "192.168.1.11", 0.85, false, "office", 500, 200⟩,
    ⟨"ws-finance-01", .workstation, "192.168.2.10", 0.8, false, "office", 200, 300⟩,
    ⟨"ws-finance-02", .workstation, "192.168.2.11", 0.9, false, "office", 350, 350⟩,
    ⟨"ws-hr-01", .workstation, "192.168.2.20", 0.7, false, "office", 450, 350⟩,
    ⟨"ws-it-01", .workstation, "192.168.2.30", 0.95, false, "office", 600, 300⟩,
    ⟨"mobile-ceo", .mobile, "10.0.1.5", 0.8, false, "office", 100, 400⟩,
    ⟨"printer-01", .iot, "192.168.3.10", 0.4, false, "office", 700, 400⟩ ]

/-- The `connections` table of `_initialize_network`. -/
def connections : List (String × String) :=
  [ ("firewall-01", "dc-server-01"),
    ("firewall-01", "db-server-01"),
    ("firewall-01", "ws-finance-01"),
    ("firewall-01", "ws-finance-02"),
    ("firewall-01", "ws-hr-01"),
    ("firewall-01", "ws-it-01"),
    ("firewall-01", "mobile-ceo"),
    ("firewall-01", "printer-01"),
    ("dc-server-01", "db-server-01"),
    ("ws-finance-01", "ws-finance-02") ]

/-- The symmetric closure of `connections`: each connection is inserted in
both directions into `network_graph`. -/
def initial_network_graph : List (String × String) :=
  connections ++ connections.map (fun p => (p.2, p.1))

/-- The `users_config` table of `_initialize_network`. -/
def users_config : List User :=
  [ ⟨"alice.finance", "Alice Johnson", "CFO", 0.3, "finance"⟩,
    ⟨"bob.it", "Bob Wilson", "IT Admin", 0.2, "it"⟩,
    ⟨"carol.hr", "Carol Brown", "HR Manager", 0.4, "hr"⟩,
    ⟨"dave.sales", "Dave Miller", "Sales Rep", 0.5, "sales"⟩,
    ⟨"eve.contractor", "Eve Davis", "Contractor", 0.8, "external"⟩,
    ⟨"frank.intern", "Frank Smith", "Intern", 0.6, "intern"⟩ ]

/-- The state built by `__init__` / `_initialize_network`. -/
def initialState : SimState :=
  ⟨devices_config, users_config, initial_network_graph, ⟨0, 0, 0, 0⟩, []⟩

/-- `_get_resource_sensitivity`: the fixed sensitivity table with default
`0.5` for unknown resources. -/
def _get_resource_sensitivity (resource : String) : ℚ :=
  if resource == "database" then 0.9
  else if resource == "financial_data" then 0.95
  else if resource == "customer_data" then 0.85
  else if resource == "admin_panel" then 0.9
  else if resource == "hr_records" then 0.8
  else if resource == "source_code" then 0.7
  else if resource == "file_share" then 0.5
  else if resource == "email" then 0.3
  else if resource == "printer" then 0.2
  else if resource == "web_app" then 0.4
  else if resource == "reports" then 0.6
  else 0.5

/-- `_get_time_risk`: bucket the hour-of-day of the timestamp
(`datetime.fromtimestamp(timestamp).hour`, modelled as `timestamp / 3600 % 24`). -/
def _get_time_risk (timestamp : ℕ) : ℚ :=
  let hour := timestamp / 3600 % 24
  if 9 ≤ hour ∧ hour ≤ 17 then 0.9
  else if (7 ≤ hour ∧ hour < 9) ∨ (17 < hour ∧ hour ≤ 20) then 0.6
  else 0.2

/-- `evaluate_zerotrust_access`: look up user and device, compute the four
weighted risk factors, the baseline decision by risk thresholds, then the
three override rules, in source order. -/
def evaluate_zerotrust_access (s : SimState) (req : AccessRequest) : AccessResult :=
  match s.users.find? (fun u => u.user_id == req.user_id),
        s.devices.find? (fun d => d.device_id == req.device_id) with
  | some user, some device =>
      let user_risk := user.risk_score
      let device_trust := device.trust_score
      let resource_sensitivity := _get_resource_sensitivity req.resource
      let time_risk := _get_time_risk req.timestamp
      let risk_factors : RiskFactors :=
        ⟨user_risk * 0.3, (1 - device_trust) * 0.3,
         resource_sensitivity * 0.25, (1 - time_risk) * 0.15⟩
      let overall_risk := risk_factors.user_risk + risk_factors.device_risk +
        risk_factors.resource_sensitivity + risk_factors.time_risk
      let base : AccessDecision × String :=
        if overall_risk < 0.5 then
          (.ALLOW, "Low risk profile - access granted")
        else if overall_risk < 0.8 then
          (.CHALLENGE, "Medium risk - additional verification required")
        else
          (.DENY, "High risk profile - access denied")
      let final : AccessDecision × String :=
        if device.is_compromised then
          (.DENY, "Device compromised - access blocked")
        else if resource_sensitivity > 0.8 ∧ device_trust < 0.8 then
          (.DENY, "Insufficient device trust for sensitive resource")
        else if user.department == "external" ∧ resource_sensitivity > 0.5 then
          (.CHALLENGE, "External user accessing internal resource")
        else base
      ⟨final.1, final.2, 1 - overall_risk, some risk_factors⟩
  | _, _ =>
      ⟨.DENY, "Unknown user or device", 0.0, none⟩

/-- `self.activity_stats[decision_type] += 1` followed by
`self.activity_stats[total_requests] += 1`. -/
def bump_stats (st : ActivityStats) (d : AccessDecision) : ActivityStats :=
  let st1 :=
    match d with
    | .ALLOW => { st with allowed := st.allowed + 1 }
    | .DENY => { st with denied := st.denied + 1 }
    | .CHALLENGE => { st with challenged := st.challenged + 1 }
  { st1 with total_requests := st1.total_requests + 1 }

/-- One iteration's random draws in `simulate_normal_activity`: the chosen
user id, device id, resource, and the `time.time()` timestamp. -/
structure ActivityChoice where
  user_id : String
  device_id : String
  resource : String
  timestamp : ℕ
deriving DecidableEq, Repr

/-- One iteration of the `generate_activity` loop: build the request,
evaluate it with the zero-trust model, and update the statistics. -/
def activity_step (s : SimState) (c : ActivityChoice) : SimState :=
  let req : AccessRequest := ⟨c.user_id, c.device_id, c.resource, "access", c.timestamp⟩
  let decision_result := evaluate_zerotrust_access s req
  { s with activity_stats := bump_stats s.activity_stats decision_result.decision }

/-- `simulate_normal_activity`: the `generate_activity` loop over one choice
per generated request (the source draws exactly 10 choices). -/
def simulate_normal_activity (s : SimState) (choices : List ActivityChoice) : SimState :=
  choices.foldl activity_step s

/-- `self.devices[id].is_compromised = True`, expressed over the device list. -/
def markCompromised (devices : List Device) (id : String) : List Device :=
  devices.map (fun d => if d.device_id == id then { d with is_compromised := true } else d)

/-- Adding an element to the `compromised` set, modelled as
append-if-absent on a duplicate-free list. -/
def insertNew (l : List String) (x : String) : List String :=
  if x ∈ l then l else l ++ [x]

/-- `list(self.network_graph[entry])`: the neighbor list of a device
(empty for an id with no edges, as for the `defaultdict`). -/
def neighborsOf (s : SimState) (id : String) : List String :=
  (s.network_graph.filter (fun e => e.1 == id)).map (fun e => e.2)

/-- The `attack_complete` results payload (the wall-clock `duration` and
random `attack_id` are I/O and are not modelled). -/
structure AttackResults where
  model : String
  compromised_count : ℕ
  total_nodes : ℕ
  containment_effectiveness : String
  entry_point : String
deriving DecidableEq, Repr

/-- The `f"{q:.1f}%"` formatting of the containment percentage: one decimal
digit (rounding to the nearest tenth), then a percent sign. -/
def fmt_percent (q : ℚ) : String :=
  let n : Int := round (q * 10)
  toString (n / 10) ++ "." ++ toString ((n % 10).natAbs) ++ "%"

/-- `((total_devices - compromised_count) / total_devices) * 100` as an exact
rational. -/
def containment_value (total compromised : ℕ) : ℚ :=
  ((total : ℚ) - (compromised : ℚ)) / (total : ℚ) * 100

/-- One iteration of the traditional spreading loop: skip the entry point,
otherwise add the target to the compromised set and mark its device. -/
def traditional_step (entry_point : String) (acc : List Device × List String)
    (target : String) : List Device × List String :=
  if target == entry_point then acc
  else (markCompromised acc.1 target, insertNew acc.2 target)

/-- `_simulate_traditional_attack`: mark the entry point, then iterate over
every device id and compromise each non-entry device unconditionally; report
the final counts and containment percentage. -/
def _simulate_traditional_attack (s : SimState) (entry_point : String) :
    SimState × AttackResults :=
  let all_devices := s.devices.map (fun d => d.device_id)
  let devices0 := markCompromised s.devices entry_point
  let acc := all_devices.foldl (traditional_step entry_point) (devices0, [entry_point])
  let total_devices := all_devices.length
  let compromised_count := acc.2.length
  ({ s with devices := acc.1 },
   ⟨"traditional", compromised_count, total_devices,
    fmt_percent (containment_value total_devices compromised_count), entry_point⟩)

/-- One iteration of the zero-trust lateral-movement loop: the Boolean is the
draw `random.random() < 0.1`; on success the target is compromised, on
failure nothing changes. -/
def zerotrust_step (acc : List Device × List String) (td : String × Bool) :
    List Device × List String :=
  if td.2 then (markCompromised acc.1 td.1, insertNew acc.2 td.1) else acc

/-- `_simulate_zerotrust_attack`: mark the entry point, attempt lateral
movement on the first 4 neighbors only, each succeeding only when its draw is
true; report the final counts and containment percentage. -/
def _simulate_zerotrust_attack (s : SimState) (entry_point : String)
    (draws : List Bool) : SimState × AttackResults :=
  let neighbors := neighborsOf s entry_point
  let attempted_targets := neighbors.take 4
  let devices0 := markCompromised s.devices entry_point
  let acc := (attempted_targets.zip draws).foldl zerotrust_step (devices0, [entry_point])
  let total_devices := s.devices.length
  let compromised_count := acc.2.length
  ({ s with devices := acc.1 },
   ⟨"zerotrust", compromised_count, total_devices,
    fmt_percent (containment_value total_devices compromised_count), entry_point⟩)

/-- `reset_network`: clear every compromised flag, zero the stats, clear the
attack-session bookkeeping. -/
def reset_network (s : SimState) : SimState :=
  { s with
    devices := s.devices.map (fun d => { d with is_compromised := false }),
    activity_stats := ⟨0, 0, 0, 0⟩,
    attack_sessions := [] }

/-- A node of the `get_network_topology` payload. -/
structure TopologyNode where
  id : String
  type : String
  trust_score : ℚ
  is_compromised : Bool
  x : ℚ
  y : ℚ
deriving DecidableEq, Repr

/-- `get_network_topology`: the node list, and the link list containing every
directed edge whose source id is strictly below its target id. -/
def get_network_topology (s : SimState) :
    List TopologyNode × List (String × String) :=
  (s.devices.map (fun d =>
      ⟨d.device_id, d.device_type.value, d.trust_score, d.is_compromised, d.x, d.y⟩),
   s.network_graph.filter (fun e => decide (e.1 < e.2)))

/-- The sum of the four weighted risk components, the `sum(risk_factors.values())`
of the source. -/
def sumRF (rf : RiskFactors) : ℚ :=
  rf.user_risk + rf.device_risk + rf.resource_sensitivity + rf.time_risk

/-- The counters invariant of the running statistics:
allowed + denied + challenged = total_requests. -/
def statsWF (st : ActivityStats) : Prop :=
  st.allowed + st.denied + st.challenged = st.total_requests

/-- Everything of a device except its mutable compromised flag. -/
def deviceFrame (d : Device) : String × DeviceType × String × ℚ × String × ℚ × ℚ :=
  (d.device_id, d.device_type, d.ip_address, d.trust_score, d.location, d.x, d.y)

/-- Everything of the engine state except the compromised flags, the stats
and the attack bookkeeping: the device frames, the user set, the adjacency. -/
def stateFrame (s : SimState) :
    List (String × DeviceType × String × ℚ × String × ℚ × ℚ) × List User ×
      List (String × String) :=
  (s.devices.map deviceFrame, s.users, s.network_graph)

/-- The initial state with `ws-finance-01` compromised, as after an attack
step landing there. -/
def stateC1 : SimState :=
  { initialState with devices := markCompromised initialState.devices "ws-finance-01" }

/-- Concrete request used to instantiate C1. -/
def reqC1 : AccessRequest :=
  ⟨"alice.finance", "ws-finance-01", "email", "access", 46800⟩

/-- Concrete request used to instantiate C4. -/
def reqC4 : AccessRequest :=
  ⟨"bob.it", "printer-01", "web_app", "access", 3600⟩

/-- The spec's worked example request: alice.finance on ws-finance-01 for
financial_data at a business-hours timestamp (hour 13). -/
def reqC5 : AccessRequest :=
  ⟨"alice.finance", "ws-finance-01", "financial_data", "access", 46800⟩

/-- The initial state with ws-finance-01's trust score lowered to 0.5, for the
second half of the spec's worked example. -/
def stateC5_lowtrust : SimState :=
  { initialState with
    devices := initialState.devices.map (fun d =>
      if d.device_id == "ws-finance-01" then { d with trust_score := 0.5 } else d) }

/-- Concrete request with an unknown user id, used to instantiate C6. -/
def reqC6 : AccessRequest :=
  ⟨"mallory.unknown", "ws-finance-01", "email", "access", 46800⟩

/-- Concrete activity choice used to instantiate C10. -/
def choiceC10 : ActivityChoice := ⟨"alice.finance", "ws-hr-01", "email", 46800⟩

/-! ## Theorems -/

/-- C1: whenever the request's device id resolves to a device whose
compromised flag is set, the evaluator returns DENY with the
device-compromised reason — for every user, device trust score, resource and
timestamp. -/
theorem C1_compromised_device_denies (s : SimState) (req : AccessRequest)
    (u : User) (d : Device)
    (hu : s.users.find? (fun x => x.user_id == req.user_id) = some u)
    (hd : s.devices.find? (fun x => x.device_id == req.device_id) = some d)
    (hc : d.is_compromised = true) :
    (evaluate_zerotrust_access s req).decision = .DENY ∧
    (evaluate_zerotrust_access s req).reason = "Device compromised - access blocked" := by
  rw [evaluate_zerotrust_access, hu, hd]
  simp [hc]

theorem C1_compromised_device_denies_witness :
    (evaluate_zerotrust_access stateC1 reqC1).decision = .DENY ∧
    (evaluate_zerotrust_access stateC1 reqC1).reason = "Device compromised - access blocked" :=
  C1_compromised_device_denies stateC1 reqC1
    ⟨"alice.finance", "Alice Johnson", "CFO", 0.3, "finance"⟩
    ⟨"ws-finance-01", .workstation, "192.168.2.10", 0.8, true, "office", 200, 300⟩
    (by rfl) (by rfl) rfl

/-- C6: a request naming an unknown user id or unknown device id is denied
with reason "Unknown user or device", trust score 0.0 and no risk factors in
the result; `evaluate_zerotrust_access` is a total pure function of the state
and the request, so it can neither raise nor mutate any state. -/
theorem C6_unknown_user_or_device (s : SimState) (req : AccessRequest)
    (h : s.users.find? (fun x => x.user_id == req.user_id) = none ∨
         s.devices.find? (fun x => x.device_id == req.device_id) = none) :
    evaluate_zerotrust_access s req =
      ⟨.DENY, "Unknown user or device", 0.0, none⟩ := by
  rcases hu : s.users.find? (fun x => x.user_id == req.user_id) with _ | u
  · unfold evaluate_zerotrust_access
    rw [hu]
  · rcases hd : s.devices.find? (fun x => x.device_id == req.device_id) with _ | d
    · unfold evaluate_zerotrust_access
      rw [hu, hd]
    · rw [hu, hd] at h
      simp at h

theorem C6_unknown_user_or_device_witness :
    evaluate_zerotrust_access initialState reqC6 =
      ⟨.DENY, "Unknown user or device", 0.0, none⟩ :=
  C6_unknown_user_or_device initialState reqC6 (Or.inl (by rfl))

/-- C5: on the worked example the evaluator computes risk factors
0.09 / 0.06 / 0.2375 / 0.015, overall risk 0.4025 (trust score 0.5975), and
decides ALLOW (override 2 does not fire since trust 0.8 is not < 0.8); with
device trust lowered to 0.5 the insufficient-device-trust override fires and
the final decision is DENY. -/
theorem C5_worked_example :
    (evaluate_zerotrust_access initialState reqC5).risk_factors =
        some ⟨0.09, 0.06, 0.2375, 0.015⟩ ∧
    (evaluate_zerotrust_access initialState reqC5).trust_score = 1 - 0.4025 ∧
    (evaluate_zerotrust_access initialState reqC5).decision = .ALLOW ∧
    (evaluate_zerotrust_access stateC5_lowtrust reqC5).decision = .DENY ∧
    (evaluate_zerotrust_access stateC5_lowtrust reqC5).reason =
        "Insufficient device trust for sensitive resource" := by
  have hu : initialState.users.find? (fun u => u.user_id == reqC5.user_id)
      = some ⟨"alice.finance", "Alice Johnson", "CFO", 0.3, "finance"⟩ := rfl
  have hd : initialState.devices.find? (fun d => d.device_id == reqC5.device_id)
      = some ⟨"ws-finance-01", .workstation, "192.168.2.10", 0.8, false, "office", 200, 300⟩ := rfl
  have hd' : stateC5_lowtrust.devices.find? (fun d => d.device_id == reqC5.device_id)
      = some ⟨"ws-finance-01", .workstation, "192.168.2.10", 0.5, false, "office", 200, 300⟩ := rfl
  have hu' : stateC5_lowtrust.users.find? (fun u => u.user_id == reqC5.user_id)
      = some ⟨"alice.finance", "Alice Johnson", "CFO", 0.3, "finance"⟩ := rfl
  refine ⟨?_, ?_, ?_, ?_, ?_⟩ <;>
    rw [evaluate_zerotrust_access] <;>
    first
      | (rw [hu, hd]; simp [_get_resource_sensitivity, _get_time_risk, reqC5]; norm_num)
      | (rw [hu', hd']; simp [_get_resource_sensitivity, _get_time_risk, reqC5]; norm_num)

set_option maxHeartbeats 1000000 in
/-- Every resource sensitivity is between 0.2 and 0.95. -/
lemma sens_bounds (r : String) :
    0.2 ≤ _get_resource_sensitivity r ∧ _get_resource_sensitivity r ≤ 0.95 := by
  unfold _get_resource_sensitivity
  split_ifs <;> norm_num

/-- Every time-risk bucket value is between 0.2 and 0.9. -/
lemma time_bounds (ts : ℕ) :
    0.2 ≤ _get_time_risk ts ∧ _get_time_risk ts ≤ 0.9 := by
  dsimp only [_get_time_risk]
  split_ifs <;> norm_num

/-- C4: the evaluator's decision is always one of ALLOW, CHALLENGE, DENY;
whenever risk factors are returned the trust score is exactly 1 minus their
sum; and when the state's user risk scores and device trust scores lie in
[0,1] (as every constructed state's do), the overall risk also lies in [0,1]. -/
theorem C4_decision_range_and_trust (s : SimState) (req : AccessRequest)
    (hu : ∀ u ∈ s.users, 0 ≤ u.risk_score ∧ u.risk_score ≤ 1)
    (hd : ∀ d ∈ s.devices, 0 ≤ d.trust_score ∧ d.trust_score ≤ 1) :
    ((evaluate_zerotrust_access s req).decision = .ALLOW ∨
     (evaluate_zerotrust_access s req).decision = .CHALLENGE ∨
     (evaluate_zerotrust_access s req).decision = .DENY) ∧
    (∀ rf, (evaluate_zerotrust_access s req).risk_factors = some rf →
      (evaluate_zerotrust_access s req).trust_score = 1 - sumRF rf ∧
      0 ≤ sumRF rf ∧ sumRF rf ≤ 1) := by
  rcases hfu : s.users.find? (fun x => x.user_id == req.user_id) with _ | u
  · unfold evaluate_zerotrust_access
    rw [hfu]
    exact ⟨Or.inr (Or.inr rfl), by intro rf hrf; simp at hrf⟩
  rcases hfd : s.devices.find? (fun x => x.device_id == req.device_id) with _ | d
  · unfold evaluate_zerotrust_access
    rw [hfu, hfd]
    exact ⟨Or.inr (Or.inr rfl), by intro rf hrf; simp at hrf⟩
  have hmemu : u ∈ s.users := List.mem_of_find?_eq_some hfu
  have hmemd : d ∈ s.devices := List.mem_of_find?_eq_some hfd
  obtain ⟨hu0, hu1⟩ := hu u hmemu
  obtain ⟨hd0, hd1⟩ := hd d hmemd
  obtain ⟨hs0, hs1⟩ := sens_bounds req.resource
  obtain ⟨ht0, ht1⟩ := time_bounds req.timestamp
  unfold evaluate_zerotrust_access
  rw [hfu, hfd]
  dsimp only
  constructor
  · split_ifs <;> simp
  · intro rf hrf
    rw [Option.some.injEq] at hrf
    subst hrf
    refine ⟨by dsimp only [sumRF], ?_, ?_⟩ <;> dsimp only [sumRF] <;> nlinarith

theorem C4_decision_range_and_trust_witness :
    ((evaluate_zerotrust_access initialState reqC4).decision = .ALLOW ∨
     (evaluate_zerotrust_access initialState reqC4).decision = .CHALLENGE ∨
     (evaluate_zerotrust_access initialState reqC4).decision = .DENY) ∧
    (∀ rf, (evaluate_zerotrust_access initialState reqC4).risk_factors = some rf →
      (evaluate_zerotrust_access initialState reqC4).trust_score = 1 - sumRF rf ∧
      0 ≤ sumRF rf ∧ sumRF rf ≤ 1) :=
  C4_decision_range_and_trust initialState reqC4
    (by intro u hu; simp [initialState, users_config] at hu
        rcases hu with h | h | h | h | h | h <;> subst h <;> norm_num)
    (by intro d hd; simp [initialState, devices_config] at hd
        rcases hd with h | h | h | h | h | h | h | h | h <;> subst h <;> norm_num)

/-- C7: after `reset_network` every device's compromised flag is false, the
four ActivityStats counters are zero and the attack-session bookkeeping is
empty, whatever state (after any sequence of runs) it is applied to; applying
reset twice equals applying it once. -/
theorem C7_reset_clean_and_idempotent (s : SimState) :
    (∀ d ∈ (reset_network s).devices, d.is_compromised = false) ∧
    (reset_network s).activity_stats = ⟨0, 0, 0, 0⟩ ∧
    (reset_network s).attack_sessions = [] ∧
    reset_network (reset_network s) = reset_network s := by
  refine ⟨?_, rfl, rfl, ?_⟩
  · intro d hd
    simp only [reset_network, List.mem_map] at hd
    obtain ⟨d0, _, rfl⟩ := hd
    rfl
  · simp only [reset_network, List.map_map]
    congr 1

/-- C10: the counters satisfy allowed + denied + challenged = total_requests
at initialization and after reset, and every activity step increments exactly
one of the three decision counters and the total by one, so the invariant is
preserved by every step. -/
theorem C10_stats_invariant (s : SimState) (c : ActivityChoice)
    (h : statsWF s.activity_stats) :
    statsWF initialState.activity_stats ∧
    statsWF (reset_network s).activity_stats ∧
    (activity_step s c).activity_stats.total_requests
        = s.activity_stats.total_requests + 1 ∧
    (((activity_step s c).activity_stats.allowed = s.activity_stats.allowed + 1 ∧
      (activity_step s c).activity_stats.denied = s.activity_stats.denied ∧
      (activity_step s c).activity_stats.challenged = s.activity_stats.challenged) ∨
     ((activity_step s c).activity_stats.allowed = s.activity_stats.allowed ∧
      (activity_step s c).activity_stats.denied = s.activity_stats.denied + 1 ∧
      (activity_step s c).activity_stats.challenged = s.activity_stats.challenged) ∨
     ((activity_step s c).activity_stats.allowed = s.activity_stats.allowed ∧
      (activity_step s c).activity_stats.denied = s.activity_stats.denied ∧
      (activity_step s c).activity_stats.challenged = s.activity_stats.challenged + 1)) ∧
    statsWF (activity_step s c).activity_stats := by
  refine ⟨rfl, rfl, ?_⟩
  simp only [activity_step, statsWF] at h ⊢
  generalize (evaluate_zerotrust_access s _).decision = d
  cases d <;> simp [bump_stats] <;> try omega

theorem C10_stats_invariant_witness :
    statsWF initialState.activity_stats ∧
    statsWF (reset_network initialState).activity_stats ∧
    (activity_step initialState choiceC10).activity_stats.total_requests
        = initialState.activity_stats.total_requests + 1 ∧
    (((activity_step initialState choiceC10).activity_stats.allowed = initialState.activity_stats.allowed + 1 ∧
      (activity_step initialState choiceC10).activity_stats.denied = initialState.activity_stats.denied ∧
      (activity_step initialState choiceC10).activity_stats.challenged = initialState.activity_stats.challenged) ∨
     ((activity_step initialState choiceC10).activity_stats.allowed = initialState.activity_stats.allowed ∧
      (activity_step initialState choiceC10).activity_stats.denied = initialState.activity_stats.denied + 1 ∧
      (activity_step initialState choiceC10).activity_stats.challenged = initialState.activity_stats.challenged) ∨
     ((activity_step initialState choiceC10).activity_stats.allowed = initialState.activity_stats.allowed ∧
      (activity_step initialState choiceC10).activity_stats.denied = initialState.activity_stats.denied ∧
      (activity_step initialState choiceC10).activity_stats.challenged = initialState.activity_stats.challenged + 1)) ∧
    statsWF (activity_step initialState choiceC10).activity_stats :=
  C10_stats_invariant initialState choiceC10 rfl

/-- Marking a device compromised changes no device frame. -/
lemma frame_markCompromised (ds : List Device) (id : String) :
    (markCompromised ds id).map deviceFrame = ds.map deviceFrame := by
  unfold markCompromised
  rw [List.map_map]
  apply List.map_congr_left
  intro d _
  by_cases h : (d.device_id == id) = true <;> simp [Function.comp, h, deviceFrame]

/-- The traditional spreading loop changes no device frame. -/
lemma frame_trad_fold (e : String) (ids : List String) :
    ∀ p : List Device × List String,
      ((ids.foldl (traditional_step e) p).1).map deviceFrame = p.1.map deviceFrame := by
  induction ids with
  | nil => intro p; rfl
  | cons t ids ih =>
    intro p
    rw [List.foldl_cons, ih]
    unfold traditional_step
    by_cases h : (t == e) = true
    · rw [if_pos h]
    · rw [if_neg h]
      exact frame_markCompromised p.1 t

/-- The zero-trust lateral-movement loop changes no device frame. -/
lemma frame_zt_fold (l : List (String × Bool)) :
    ∀ p : List Device × List String,
      ((l.foldl zerotrust_step p).1).map deviceFrame = p.1.map deviceFrame := by
  induction l with
  | nil => intro p; rfl
  | cons td l ih =>
    intro p
    rw [List.foldl_cons, ih]
    unfold zerotrust_step
    by_cases h : td.2 = true
    · rw [if_pos h]
      exact frame_markCompromised p.1 td.1
    · rw [if_neg h]

/-- The activity loop touches only the stats field. -/
lemma activity_fold_fields (choices : List ActivityChoice) :
    ∀ s : SimState,
      (simulate_normal_activity s choices).devices = s.devices ∧
      (simulate_normal_activity s choices).users = s.users ∧
      (simulate_normal_activity s choices).network_graph = s.network_graph := by
  induction choices with
  | nil => intro s; exact ⟨rfl, rfl, rfl⟩
  | cons c cs ih =>
    intro s
    exact ih (activity_step s c)

/-- C8: each engine operation — an activity batch, a traditional attack run,
a zero-trust attack run, reset — preserves every device's id, type, address,
trust score and position, the user set, and the adjacency relation
(`evaluate_zerotrust_access` itself returns a result without touching any
state, so the claim is immediate for it). -/
theorem C8_frame_preservation (s : SimState) (choices : List ActivityChoice)
    (e1 e2 : String) (draws : List Bool) :
    stateFrame (simulate_normal_activity s choices) = stateFrame s ∧
    stateFrame (_simulate_traditional_attack s e1).1 = stateFrame s ∧
    stateFrame (_simulate_zerotrust_attack s e2 draws).1 = stateFrame s ∧
    stateFrame (reset_network s) = stateFrame s := by
  refine ⟨?_, ?_, ?_, ?_⟩
  · obtain ⟨h1, h2, h3⟩ := activity_fold_fields choices s
    simp [stateFrame, h1, h2, h3]
  · simp only [stateFrame, _simulate_traditional_attack]
    rw [frame_trad_fold, frame_markCompromised]
  · simp only [stateFrame, _simulate_zerotrust_attack]
    rw [frame_zt_fold, frame_markCompromised]
  · simp only [stateFrame, reset_network, List.map_map]
    rfl

/-- Folding `markCompromised` over a list of ids sets the flag of exactly the
devices whose id occurs in the list. -/
lemma foldl_markCompromised (ids : List String) :
    ∀ ds : List Device,
      ids.foldl markCompromised ds
        = ds.map (fun d =>
            if d.device_id ∈ ids then { d with is_compromised := true } else d) := by
  induction ids with
  | nil =>
    intro ds
    simp
  | cons t ids ih =>
    intro ds
    rw [List.foldl_cons, ih]
    unfold markCompromised
    rw [List.map_map]
    apply List.map_congr_left
    intro d _
    by_cases h : (d.device_id == t) = true
    · have h' : d.device_id = t := by simpa using h
      by_cases h2 : d.device_id ∈ ids <;>
        simp [Function.comp, h, h', h2, List.mem_cons]
    · have h' : ¬ d.device_id = t := by simpa using h
      by_cases h2 : d.device_id ∈ ids <;>
        simp [Function.comp, h, h', h2, List.mem_cons]

/-- The device-list component of the traditional loop is the
`markCompromised` fold over the non-entry ids. -/
lemma trad_fold_fst (e : String) (ids : List String) :
    ∀ p : List Device × List String,
      (ids.foldl (traditional_step e) p).1
        = (ids.filter (fun t => !(t == e))).foldl markCompromised p.1 := by
  induction ids with
  | nil => intro p; rfl
  | cons t ids ih =>
    intro p
    rw [List.foldl_cons, ih]
    by_cases h : (t == e) = true <;>
      simp [traditional_step, h, List.filter_cons]

/-- The compromised-set component of the traditional loop: the starting set
followed by every non-entry id, in order, provided the ids are distinct and
not already present. -/
lemma trad_fold_snd (e : String) (ids : List String) :
    ∀ (ds : List Device) (comp : List String), ids.Nodup →
      (∀ x ∈ ids, x ≠ e → x ∉ comp) →
      (ids.foldl (traditional_step e) (ds, comp)).2
        = comp ++ ids.filter (fun t => !(t == e)) := by
  induction ids with
  | nil =>
    intro ds comp _ _
    simp
  | cons t ids ih =>
    intro ds comp hnd hdis
    rw [List.foldl_cons]
    by_cases h : (t == e) = true
    · have hstep : traditional_step e (ds, comp) t = (ds, comp) := by
        simp [traditional_step, h]
      rw [hstep, ih ds comp (List.nodup_cons.mp hnd).2
        (fun x hx hxe => hdis x (List.mem_cons_of_mem _ hx) hxe)]
      simp [List.filter_cons, h]
    · have hne : t ≠ e := by simpa using h
      have hnotin : t ∉ comp := hdis t (List.mem_cons_self t ids) hne
      have hstep : traditional_step e (ds, comp) t
          = (markCompromised ds t, comp ++ [t]) := by
        simp [traditional_step, h, insertNew, hnotin]
      rw [hstep, ih (markCompromised ds t) (comp ++ [t]) (List.nodup_cons.mp hnd).2 ?hdis]
      · simp [List.filter_cons, h]
      case hdis =>
        intro x hx hxe
        rw [List.mem_append]
        rintro (hc | hc)
        · exact hdis x (List.mem_cons_of_mem _ hx) hxe hc
        · rw [List.mem_singleton] at hc
          subst hc
          exact (List.nodup_cons.mp hnd).1 hx

/-- Removing one occurrence of a present element from a duplicate-free list
shortens it by exactly one. -/
lemma filter_ne_length (l : List String) (e : String) :
    l.Nodup → e ∈ l → (l.filter (fun t => !(t == e))).length + 1 = l.length := by
  induction l with
  | nil =>
    intro _ he
    cases he
  | cons a l ih =>
    intro hnd he
    rw [List.filter_cons]
    by_cases h : (a == e) = true
    · have h' : a = e := by simpa using h
      subst h'
      have hnotin : a ∉ l := (List.nodup_cons.mp hnd).1
      have hfix : l.filter (fun t => !(t == a)) = l := by
        apply List.filter_eq_self.mpr
        intro x hx
        have : x ≠ a := fun hxa => hnotin (hxa ▸ hx)
        simpa using this
      simp [h, hfix]
    · have h' : a ≠ e := by simpa using h
      have he' : e ∈ l := by
        rcases List.mem_cons.mp he with h1 | h1
        · exact absurd h1.symm h'
        · exact h1
      have := ih (List.nodup_cons.mp hnd).2 he'
      simp only [h, cond_true]
      simp [List.length_cons]
      omega

/-- The percentage string of the exact value 0 is "0.0%". -/
lemma fmt_percent_zero : fmt_percent 0 = "0.0%" := by
  have h : round ((0 : ℚ) * 10) = 0 := by norm_num
  unfold fmt_percent
  rw [h]
  decide

/-- A fully compromised run has containment value exactly 0. -/
lemma containment_value_self (n : ℕ) : containment_value n n = 0 := by
  unfold containment_value
  simp

/-- C2: for every entry point drawn from the device table, the traditional
attack run terminates with every device marked compromised, reports a
compromised count equal to the total device count, and reports containment
effectiveness "0.0%". -/
theorem C2_traditional_total_compromise (s : SimState) (e : String)
    (hnd : (s.devices.map (fun d => d.device_id)).Nodup)
    (he : e ∈ s.devices.map (fun d => d.device_id)) :
    (∀ d ∈ (_simulate_traditional_attack s e).1.devices, d.is_compromised = true) ∧
    (_simulate_traditional_attack s e).2.compromised_count = s.devices.length ∧
    (_simulate_traditional_attack s e).2.total_nodes = s.devices.length ∧
    (_simulate_traditional_attack s e).2.containment_effectiveness = "0.0%" := by
  have hdis0 : ∀ x ∈ s.devices.map (fun d => d.device_id), x ≠ e → x ∉ [e] := by
    intro x _ hxe
    simp [hxe]
  have hsnd := trad_fold_snd e (s.devices.map (fun d => d.device_id))
    (markCompromised s.devices e) [e] hnd hdis0
  have hflen := filter_ne_length (s.devices.map (fun d => d.device_id)) e hnd he
  have hcount : ((s.devices.map (fun d => d.device_id)).foldl
      (traditional_step e) (markCompromised s.devices e, [e])).2.length
      = s.devices.length := by
    rw [hsnd]
    rw [List.length_append]
    rw [List.length_map] at hflen
    simp only [List.length_singleton]
    omega
  refine ⟨?_, ?_, ?_, ?_⟩
  · intro d hd
    simp only [_simulate_traditional_attack] at hd
    rw [trad_fold_fst] at hd
    have hdev : ((s.devices.map (fun d => d.device_id)).filter
          (fun t => !(t == e))).foldl markCompromised (markCompromised s.devices e)
        = s.devices.map (fun d =>
            if d.device_id ∈ e :: (s.devices.map (fun d => d.device_id)).filter
                (fun t => !(t == e)) then
              { d with is_compromised := true } else d) := by
      rw [← List.foldl_cons]
      exact foldl_markCompromised _ _
    rw [hdev] at hd
    obtain ⟨d0, hd0, rfl⟩ := List.mem_map.mp hd
    have hmem : d0.device_id ∈ e :: (s.devices.map (fun d => d.device_id)).filter
        (fun t => !(t == e)) := by
      by_cases hcase : d0.device_id = e
      · rw [hcase]
        exact List.mem_cons_self _ _
      · apply List.mem_cons_of_mem
        apply List.mem_filter.mpr
        refine ⟨List.mem_map_of_mem _ hd0, ?_⟩
        simpa using hcase
    rw [if_pos hmem]
  · simp only [_simulate_traditional_attack]
    exact hcount
  · simp only [_simulate_traditional_attack]
    exact List.length_map _ _
  · simp only [_simulate_traditional_attack]
    rw [hcount, List.length_map, containment_value_self, fmt_percent_zero]

theorem C2_traditional_total_compromise_witness :
    (∀ d ∈ (_simulate_traditional_attack initialState "ws-finance-01").1.devices,
        d.is_compromised = true) ∧
    (_simulate_traditional_attack initialState "ws-finance-01").2.compromised_count
        = initialState.devices.length ∧
    (_simulate_traditional_attack initialState "ws-finance-01").2.total_nodes
        = initialState.devices.length ∧
    (_simulate_traditional_attack initialState "ws-finance-01").2.containment_effectiveness
        = "0.0%" :=
  C2_traditional_total_compromise initialState "ws-finance-01" (by decide) (by decide)

/-- Each zero-trust lateral-movement step grows the compromised set by at
most one per attempted target. -/
lemma zt_fold_snd_length (l : List (String × Bool)) :
    ∀ p : List Device × List String,
      (l.foldl zerotrust_step p).2.length ≤ p.2.length + l.length := by
  induction l with
  | nil =>
    intro p
    simp
  | cons td l ih =>
    intro p
    rw [List.foldl_cons]
    have h1 := ih (zerotrust_step p td)
    have h2 : (zerotrust_step p td).2.length ≤ p.2.length + 1 := by
      unfold zerotrust_step insertNew
      split_ifs <;> simp
    simp only [List.length_cons]
    omega

/-- Marking one device preserves any property `R` of the ids of compromised
devices, provided the marked id satisfies `R`. -/
lemma mark_preserves (R : String → Prop) (ds : List Device) (id : String)
    (hds : ∀ d ∈ ds, d.is_compromised = true → R d.device_id) (hid : R id) :
    ∀ d ∈ markCompromised ds id, d.is_compromised = true → R d.device_id := by
  intro d hd hc
  unfold markCompromised at hd
  obtain ⟨d0, hd0, rfl⟩ := List.mem_map.mp hd
  by_cases h : (d0.device_id == id) = true
  · have h' : d0.device_id = id := by simpa using h
    rw [if_pos h]
    show R d0.device_id
    rw [h']
    exact hid
  · rw [if_neg h] at hc ⊢
    exact hds d0 hd0 hc

/-- The zero-trust loop preserves any property `R` of the ids of compromised
devices, provided all attempted targets satisfy `R`. -/
lemma zt_fold_fst_inv (R : String → Prop) (l : List (String × Bool)) :
    ∀ p : List Device × List String, (∀ td ∈ l, R td.1) →
      (∀ d ∈ p.1, d.is_compromised = true → R d.device_id) →
      ∀ d ∈ (l.foldl zerotrust_step p).1, d.is_compromised = true → R d.device_id := by
  induction l with
  | nil =>
    intro p _ hp
    exact hp
  | cons td l ih =>
    intro p hl hp
    rw [List.foldl_cons]
    apply ih
    · intro td' h
      exact hl td' (List.mem_cons_of_mem _ h)
    · unfold zerotrust_step
      by_cases hb : td.2 = true
      · rw [if_pos hb]
        exact mark_preserves R p.1 td.1 hp (hl td (List.mem_cons_self _ _))
      · rw [if_neg hb]
        exact hp

/-- C3: whatever the entry point and whatever the success draws, a zero-trust
attack run reports at most 1 + min(4, degree(entry)) compromised devices, and
every device compromised at the end was already compromised before the run or
is the entry point or one of its direct neighbors. -/
theorem C3_zerotrust_blast_radius (s : SimState) (e : String) (draws : List Bool) :
    (_simulate_zerotrust_attack s e draws).2.compromised_count
        ≤ 1 + min 4 (neighborsOf s e).length ∧
    ∀ d ∈ (_simulate_zerotrust_attack s e draws).1.devices, d.is_compromised = true →
      (∃ d0 ∈ s.devices, d0.device_id = d.device_id ∧ d0.is_compromised = true) ∨
      d.device_id = e ∨ d.device_id ∈ neighborsOf s e := by
  constructor
  · simp only [_simulate_zerotrust_attack]
    have h1 := zt_fold_snd_length (((neighborsOf s e).take 4).zip draws)
      (markCompromised s.devices e, [e])
    have h2 : ((((neighborsOf s e).take 4).zip draws)).length
        ≤ min 4 (neighborsOf s e).length := by
      rw [List.length_zip, List.length_take]
      exact min_le_left _ _
    simp only [List.length_singleton] at h1
    omega
  · intro d hd hc
    simp only [_simulate_zerotrust_attack] at hd
    refine zt_fold_fst_inv
      (fun i => (∃ d0 ∈ s.devices, d0.device_id = i ∧ d0.is_compromised = true) ∨
        i = e ∨ i ∈ neighborsOf s e)
      (((neighborsOf s e).take 4).zip draws)
      (markCompromised s.devices e, [e]) ?_ ?_ d hd hc
    · intro td htd
      right
      right
      exact List.take_subset _ _ (List.of_mem_zip htd).1
    · intro d0 hd0 hc0
      exact mark_preserves
        (fun i => (∃ d1 ∈ s.devices, d1.device_id = i ∧ d1.is_compromised = true) ∨
          i = e ∨ i ∈ neighborsOf s e)
        s.devices e (fun d1 h1 hc1 => Or.inl ⟨d1, h1, rfl, hc1⟩)
        (Or.inr (Or.inl rfl)) d0 hd0 hc0

/-- C9: when the adjacency edge list is symmetric, irreflexive and
duplicate-free (as the constructed one is), the link list of
`get_network_topology` has no duplicates, every link is oriented with source
strictly below target (hence no self-loops), and an unordered edge of the
adjacency relation corresponds to exactly one link, oriented source < target. -/
theorem C9_links_dedup_oriented (s : SimState)
    (hsym : ∀ p ∈ s.network_graph, (p.2, p.1) ∈ s.network_graph)
    (hirr : ∀ p ∈ s.network_graph, p.1 ≠ p.2)
    (hnd : s.network_graph.Nodup) :
    (get_network_topology s).2.Nodup ∧
    (∀ p ∈ (get_network_topology s).2, p.1 < p.2) ∧
    (∀ a b : String, (a, b) ∈ s.network_graph ↔
      ((a, b) ∈ (get_network_topology s).2 ∧ a < b) ∨
      ((b, a) ∈ (get_network_topology s).2 ∧ b < a)) := by
  refine ⟨hnd.filter _, ?_, ?_⟩
  · intro p hp
    have := (List.mem_filter.mp hp).2
    exact of_decide_eq_true this
  · intro a b
    constructor
    · intro hab
      rcases lt_trichotomy a b with h | h | h
      · exact Or.inl ⟨List.mem_filter.mpr ⟨hab, decide_eq_true h⟩, h⟩
      · exact absurd h (hirr (a, b) hab)
      · exact Or.inr ⟨List.mem_filter.mpr ⟨hsym (a, b) hab, decide_eq_true h⟩, h⟩
    · rintro (⟨hm, _⟩ | ⟨hm, _⟩)
      · exact (List.mem_filter.mp hm).1
      · exact hsym (b, a) (List.mem_filter.mp hm).1

theorem C9_links_dedup_oriented_witness :
    (get_network_topology initialState).2.Nodup ∧
    (∀ p ∈ (get_network_topology initialState).2, p.1 < p.2) ∧
    (∀ a b : String, (a, b) ∈ initialState.network_graph ↔
      ((a, b) ∈ (get_network_topology initialState).2 ∧ a < b) ∨
      ((b, a) ∈ (get_network_topology initialState).2 ∧ b < a)) :=
  C9_links_dedup_oriented initialState (by decide) (by decide) (by decide)

theorem C7_reset_clean_and_idempotent_witness :
    (∀ d ∈ (reset_network (_simulate_traditional_attack initialState "mobile-ceo").1).devices,
        d.is_compromised = false) ∧
    (reset_network (_simulate_traditional_attack initialState "mobile-ceo").1).activity_stats
        = ⟨0, 0, 0, 0⟩ ∧
    (reset_network (_simulate_traditional_attack initialState "mobile-ceo").1).attack_sessions
        = [] ∧
    reset_network (reset_network (_simulate_traditional_attack initialState "mobile-ceo").1)
        = reset_network (_simulate_traditional_attack initialState "mobile-ceo").1 :=
  C7_reset_clean_and_idempotent (_simulate_traditional_attack initialState "mobile-ceo").1

theorem C3_zerotrust_blast_radius_witness :
    (_simulate_zerotrust_attack initialState "ws-hr-01" [true, false, true, false]).2.compromised_count
        ≤ 1 + min 4 (neighborsOf initialState "ws-hr-01").length ∧
    ∀ d ∈ (_simulate_zerotrust_attack initialState "ws-hr-01" [true, false, true, false]).1.devices,
      d.is_compromised = true →
      (∃ d0 ∈ initialState.devices, d0.device_id = d.device_id ∧ d0.is_compromised = true) ∨
      d.device_id = "ws-hr-01" ∨ d.device_id ∈ neighborsOf initialState "ws-hr-01" :=
  C3_zerotrust_blast_radius initialState "ws-hr-01" [true, false, true, false]

end ZeroTrust
